import Mathlib

/-!
Verification of the Scout/Hunter base driver core
(`src/hunter_base/src/hunter_sdk/src/sdk_core/scout_base/src/scout_base.cpp`).

The definitions below are a shallow embedding of the C++ source.  `uint8_t`
values are modelled as `Nat` with an explicit `% 256` wherever the C++ type
system guarantees byte range; the 16-bit reassembly casts are modelled by
`% 65536` and an explicit two's-complement reinterpretation.  `double` values
are modelled as `ℚ` (all quantities the claims touch are exact decimal
fractions, so the rational model agrees with IEEE doubles on them).

External collaborators (the CAN/serial codecs and transports declared in
headers that are not part of this repository) enter as parameters: the
checksum byte computed by `Agilex_CANMsgChecksum` and the message decoded by
`UnpackScoutCANFrameToMsg` are arguments of `parseCANFrame`, and the success
of `ASyncSerial::open` is an argument of `configureSerial`.
-/

namespace Wescore

/-- The `uint8_t` truncation: the value of a byte-typed C++ expression. -/
def ubyte (n : Nat) : Nat := n % 256

/-- Reinterpret a `uint16_t` value as `int16_t` (the
`static_cast<int16_t>` in `UpdateScoutState`): two's complement. -/
def toInt16 (n : Nat) : Int :=
  if n % 65536 < 32768 then (n % 65536 : Int) else (n % 65536 : Int) - 65536

/-- A 16-bit quantity transmitted as two bytes, as in the status message
structs (`struct { uint8_t low_byte; uint8_t high_byte; }`). -/
structure Byte2 where
  low_byte : Nat
  high_byte : Nat
deriving DecidableEq

/-- The assembly `static_cast<uint16_t>(low_byte) | static_cast<uint16_t>(high_byte) << 8`. -/
def assembleU16 (b : Byte2) : Nat :=
  ubyte b.low_byte ||| (ubyte b.high_byte <<< 8)

/-- Light state slice of `ScoutState` (`mode`, `custom_value`). -/
structure LightState where
  mode : Nat
  custom_value : Nat
deriving DecidableEq

/-- Motor state slice of `ScoutState` (`current`, `rpm`, `temperature`). -/
structure MotorState where
  current : ℚ
  rpm : Int
  temperature : Nat
deriving DecidableEq

/-- The shared robot state record `ScoutState` written by `UpdateScoutState`
and copied out by `GetScoutState`. -/
structure ScoutState where
  linear_velocity : ℚ
  angular_velocity : ℚ
  control_mode : Nat
  base_state : Nat
  battery_voltage : ℚ
  fault_code : Nat
  light_control_enabled : Bool
  front_light_state : LightState
  rear_light_state : LightState
  motor_states : Fin 4 → MotorState

/-- Body of a `MotionStatusMessage` (the fields `UpdateScoutState` reads). -/
structure MotionStatusBody where
  linear_velocity : Byte2
  angular_velocity : Byte2
deriving DecidableEq

/-- Body of a `LightStatusMessage` (the fields `UpdateScoutState` reads). -/
structure LightStatusBody where
  light_ctrl_enable : Nat
  front_light_mode : Nat
  front_light_custom : Nat
  rear_light_mode : Nat
  rear_light_custom : Nat
deriving DecidableEq

/-- Body of a `SystemStatusMessage` (the fields `UpdateScoutState` reads). -/
structure SystemStatusBody where
  control_mode : Nat
  base_state : Nat
  battery_voltage : Byte2
  fault_code : Byte2
deriving DecidableEq

/-- Body of a `MotorDriverStatusMessage` (the fields `UpdateScoutState` reads). -/
structure MotorStatusBody where
  current : Byte2
  rpm : Byte2
  temperature : Nat
deriving DecidableEq

/-- Modelled from the spec: the message-type tag values of the
`ScoutStatusMessage` union live in a header that is not part of this
repository; only their distinctness matters to the dispatch, so they are
fixed as distinct naturals. -/
def ScoutMotionStatusMsg : Nat := 0

/-- Tag of a light status message (see `ScoutMotionStatusMsg`). -/
def ScoutLightStatusMsg : Nat := 1

/-- Tag of a system status message (see `ScoutMotionStatusMsg`). -/
def ScoutSystemStatusMsg : Nat := 2

/-- Tag of a motor 1 driver status message (see `ScoutMotionStatusMsg`). -/
def ScoutMotor1DriverStatusMsg : Nat := 3

/-- Tag of a motor 2 driver status message (see `ScoutMotionStatusMsg`). -/
def ScoutMotor2DriverStatusMsg : Nat := 4

/-- Tag of a motor 3 driver status message (see `ScoutMotionStatusMsg`). -/
def ScoutMotor3DriverStatusMsg : Nat := 5

/-- Tag of a motor 4 driver status message (see `ScoutMotionStatusMsg`). -/
def ScoutMotor4DriverStatusMsg : Nat := 6

/-- Modelled from the spec: the `LIGHT_DISABLE_CTRL` sentinel byte (header not
in this repository); only its identity as a fixed sentinel matters. -/
def LIGHT_DISABLE_CTRL : Nat := 0

/-- The `ScoutStatusMessage` tagged union: a type tag plus the union members
read by the reducer (the C++ union is modelled as a product; the reducer only
ever reads the member matching the tag). -/
structure ScoutStatusMessage where
  updated_msg_type : Nat
  motion_status_msg : MotionStatusBody
  light_status_msg : LightStatusBody
  system_status_msg : SystemStatusBody
  motor_driver_status_msg : MotorStatusBody

/-- Embedding of `ScoutBase::UpdateScoutState`: fold one decoded status message into the
robot state.  Mirrors the C++ `switch` on `updated_msg_type`; a tag matching
no case leaves the state untouched (the switch has no default). -/
def updateScoutState (status_msg : ScoutStatusMessage) (state : ScoutState) :
    ScoutState :=
  if status_msg.updated_msg_type = ScoutMotionStatusMsg then
    let msg := status_msg.motion_status_msg
    { state with
      linear_velocity := (toInt16 (assembleU16 msg.linear_velocity) : ℚ) / 1000
      angular_velocity := (toInt16 (assembleU16 msg.angular_velocity) : ℚ) / 1000 }
  else if status_msg.updated_msg_type = ScoutLightStatusMsg then
    let msg := status_msg.light_status_msg
    { state with
      light_control_enabled :=
        if msg.light_ctrl_enable = LIGHT_DISABLE_CTRL then false else true
      front_light_state :=
        { mode := msg.front_light_mode, custom_value := msg.front_light_custom }
      rear_light_state :=
        { mode := msg.rear_light_mode, custom_value := msg.rear_light_custom } }
  else if status_msg.updated_msg_type = ScoutSystemStatusMsg then
    let msg := status_msg.system_status_msg
    { state with
      control_mode := msg.control_mode
      base_state := msg.base_state
      battery_voltage := (assembleU16 msg.battery_voltage : ℚ) / 10
      fault_code := assembleU16 msg.fault_code }
  else if status_msg.updated_msg_type = ScoutMotor1DriverStatusMsg then
    let msg := status_msg.motor_driver_status_msg
    { state with
      motor_states := Function.update state.motor_states 0
        { current := (assembleU16 msg.current : ℚ) / 10
          rpm := toInt16 (assembleU16 msg.rpm)
          temperature := msg.temperature } }
  else if status_msg.updated_msg_type = ScoutMotor2DriverStatusMsg then
    let msg := status_msg.motor_driver_status_msg
    { state with
      motor_states := Function.update state.motor_states 1
        { current := (assembleU16 msg.current : ℚ) / 10
          rpm := toInt16 (assembleU16 msg.rpm)
          temperature := msg.temperature } }
  else if status_msg.updated_msg_type = ScoutMotor3DriverStatusMsg then
    let msg := status_msg.motor_driver_status_msg
    { state with
      motor_states := Function.update state.motor_states 2
        { current := (assembleU16 msg.current : ℚ) / 10
          rpm := toInt16 (assembleU16 msg.rpm)
          temperature := msg.temperature } }
  else if status_msg.updated_msg_type = ScoutMotor4DriverStatusMsg then
    let msg := status_msg.motor_driver_status_msg
    { state with
      motor_states := Function.update state.motor_states 3
        { current := (assembleU16 msg.current : ℚ) / 10
          rpm := toInt16 (assembleU16 msg.rpm)
          temperature := msg.temperature } }
  else
    state

/-- Embedding of `ScoutBase::ParseCANFrame`.  The C++ guard is
`if (!rx_frame->data[7] == Agilex_CANMsgChecksum(...)) return;`, where `!`
binds to the byte before `==` compares: the frame is discarded exactly when
`(data[7] == 0 ? 1 : 0)` equals the recomputed checksum.  `chk` is the value
returned by the external `Agilex_CANMsgChecksum` on this frame and `decoded`
the message the external `UnpackScoutCANFrameToMsg` produces from it (both
codecs live outside this repository). -/
def parseCANFrame (chk : Nat) (data7 : Nat) (decoded : ScoutStatusMessage)
    (state : ScoutState) : ScoutState :=
  if (if ubyte data7 = 0 then 1 else 0) = chk then
    state
  else
    updateScoutState decoded state

/-- The zero-initialised robot state (created zero-valued at startup). -/
def initScoutState : ScoutState :=
  { linear_velocity := 0
    angular_velocity := 0
    control_mode := 0
    base_state := 0
    battery_voltage := 0
    fault_code := 0
    light_control_enabled := false
    front_light_state := { mode := 0, custom_value := 0 }
    rear_light_state := { mode := 0, custom_value := 0 }
    motor_states := fun _ => { current := 0, rpm := 0, temperature := 0 } }

/-- C++ `static_cast<int>`-style truncation of a `double` toward zero,
modelled on `ℚ`. -/
def truncQ (q : ℚ) : Int := if 0 ≤ q then ⌊q⌋ else ⌈q⌉

/-- The sequential clamp of `SetMotionCommand`: first raise below `lo`,
then lower above `hi`. -/
def clampSeq (lo hi v : ℚ) : ℚ :=
  let v1 := if v < lo then lo else v
  if v1 > hi then hi else v1

/-- The stored motion command (`current_motion_cmd_`): velocities as the
percentage-scaled integers written by `SetMotionCommand`, plus the fault
clear flag (enum modelled as `Nat`). -/
structure MotionCmdStore where
  linear_velocity : Int
  angular_velocity : Int
  fault_clear_flag : Nat
deriving DecidableEq

/-- Embedding of `ScoutBase::SetMotionCommand`, value part.  The velocity bounds
`ScoutMotionCmd::min_linear_velocity` … live in a header outside this
repository (the spec calls them a fixed symmetric range), so they are
parameters.  After the sequential clamp the code stores
`static_cast<uint8_t>(v / max * 100.0)` — an integer truncation of the
scaled value, modelled by `truncQ`. -/
def setMotionCommand (minLin maxLin minAng maxAng : ℚ)
    (linear_vel angular_vel : ℚ) (fault_clr_flag : Nat) : MotionCmdStore :=
  let lin := clampSeq minLin maxLin linear_vel
  let ang := clampSeq minAng maxAng angular_vel
  { linear_velocity := truncQ (lin / maxLin * 100)
    angular_velocity := truncQ (ang / maxAng * 100)
    fault_clear_flag := fault_clr_flag }

/-- Connection bookkeeping of `ScoutBase`: which transport objects exist,
whether the serial port was opened, and the `*_connected_` flags.
`can_configured` records that `ConfigureCANBus` created `can_if_` and
registered the receive callback; `serial_configured` and
`serial_open_attempted` record the corresponding `ConfigureSerial` steps. -/
structure ConnState where
  can_configured : Bool
  can_connected : Bool
  serial_configured : Bool
  serial_open_attempted : Bool
  serial_open : Bool
  serial_connected : Bool
deriving DecidableEq

/-- The freshly constructed `ScoutBase`: nothing configured. -/
def initConnState : ConnState :=
  { can_configured := false, can_connected := false
    serial_configured := false, serial_open_attempted := false
    serial_open := false, serial_connected := false }

/-- Embedding of `ScoutBase::ConfigureCANBus`: create the CAN interface, register the
receive callback, set `can_connected_`. -/
def configureCANBus (s : ConnState) : ConnState :=
  { s with can_configured := true, can_connected := true }

/-- Embedding of `ScoutBase::ConfigureSerial`: create and open the serial interface
(`openOk` is whether the external `ASyncSerial::open` succeeds); set
`serial_connected_` only if the port reports open. -/
def configureSerial (openOk : Bool) (s : ConnState) : ConnState :=
  let s1 := { s with serial_configured := true, serial_open_attempted := true
                     serial_open := openOk }
  if s1.serial_open then { s1 with serial_connected := true } else s1

/-- Embedding of `ScoutBase::Connect`: a zero baud rate selects the CAN bus, any other
baud rate selects the serial port. -/
def connect (openOk : Bool) (baud_rate : Int) (s : ConnState) : ConnState :=
  if baud_rate = 0 then configureCANBus s else configureSerial openOk s

/-- Embedding of `ScoutBase::Disconnect`: if `serial_connected_` and the port is open,
close it; otherwise do nothing (the CAN transport has no explicit close). -/
def disconnect (s : ConnState) : ConnState :=
  if s.serial_connected then
    (if s.serial_open then { s with serial_open := false } else s)
  else
    s

/-- Command-loop state: the two `uint8_t` counters local to
`ScoutBase::ControlLoop` (kept `< 256` as values of `Nat`), together with the
light flags `light_ctrl_enabled_` / `light_ctrl_requested_`. -/
structure CmdLoopState where
  cmd_count : Nat
  light_cmd_count : Nat
  light_ctrl_enabled : Bool
  light_ctrl_requested : Bool

/-- What one control-loop tick put on the wire: the count byte of the motion
frame (always sent) and the count byte of the light frame when one was sent. -/
structure TickOut where
  motion_count : Nat
  light_sent : Option Nat
deriving DecidableEq

/-- One iteration of the `while (true)` body of `ScoutBase::ControlLoop`:
`SendMotionCmd(cmd_count++)` unconditionally, then
`if (light_ctrl_requested_) SendLightCmd(light_cmd_count++)`, where
`SendLightCmd` clears `light_ctrl_requested_`.  The post-increments of the
`uint8_t` counters wrap at 256. -/
def tick (s : CmdLoopState) : TickOut × CmdLoopState :=
  let motion_out := s.cmd_count % 256
  let s1 := { s with cmd_count := (s.cmd_count + 1) % 256 }
  if s1.light_ctrl_requested then
    ({ motion_count := motion_out, light_sent := some (s1.light_cmd_count % 256) },
     { s1 with light_cmd_count := (s1.light_cmd_count + 1) % 256
               light_ctrl_requested := false })
  else
    ({ motion_count := motion_out, light_sent := none }, s1)

/-- Embedding of `ScoutBase::SetLightCommand`, flag part: store the command, set
`light_ctrl_enabled_` and `light_ctrl_requested_`. -/
def setLightCommand (s : CmdLoopState) : CmdLoopState :=
  { s with light_ctrl_enabled := true, light_ctrl_requested := true }

/-- Embedding of `ScoutBase::DisableLightCmdControl`: clear `light_ctrl_enabled_`, set
`light_ctrl_requested_`. -/
def disableLightCmdControl (s : CmdLoopState) : CmdLoopState :=
  { s with light_ctrl_enabled := false, light_ctrl_requested := true }

/-- An event of the concurrent history the claims quantify over: either a
control-loop tick or one of the two light-command setters (the light mutex
serialises them against the tick body). -/
inductive CmdEvent where
  | tick : CmdEvent
  | setLight : CmdEvent
  | disableLight : CmdEvent
deriving DecidableEq

/-- Apply one event to the loop state. -/
def stepEvent (s : CmdLoopState) : CmdEvent → CmdLoopState
  | .tick => (tick s).2
  | .setLight => setLightCommand s
  | .disableLight => disableLightCmdControl s

/-- Run a sequence of events. -/
def runEvents (s : CmdLoopState) : List CmdEvent → CmdLoopState
  | [] => s
  | e :: es => runEvents (stepEvent s e) es

/-- The outputs of the ticks of an event sequence, in order. -/
def tickOuts (s : CmdLoopState) : List CmdEvent → List TickOut
  | [] => []
  | CmdEvent.tick :: es => (tick s).1 :: tickOuts (tick s).2 es
  | CmdEvent.setLight :: es => tickOuts (setLightCommand s) es
  | CmdEvent.disableLight :: es => tickOuts (disableLightCmdControl s) es

/-- Loop state at thread start: both counters zero, no light request. -/
def initCmdLoopState : CmdLoopState :=
  { cmd_count := 0, light_cmd_count := 0
    light_ctrl_enabled := false, light_ctrl_requested := false }

/-! Concrete messages used to exercise the reducer. -/

/-- An all-zero motion status body. -/
def zeroMotionBody : MotionStatusBody :=
  { linear_velocity := ⟨0, 0⟩, angular_velocity := ⟨0, 0⟩ }

/-- An all-zero light status body. -/
def zeroLightBody : LightStatusBody := ⟨0, 0, 0, 0, 0⟩

/-- An all-zero system status body. -/
def zeroSystemBody : SystemStatusBody :=
  { control_mode := 0, base_state := 0
    battery_voltage := ⟨0, 0⟩, fault_code := ⟨0, 0⟩ }

/-- An all-zero motor driver status body. -/
def zeroMotorBody : MotorStatusBody :=
  { current := ⟨0, 0⟩, rpm := ⟨0, 0⟩, temperature := 0 }

/-- A motion status message carrying linear velocity bytes `{0xE8, 0x03}`
(= 1000). -/
def sampleMotionMsg : ScoutStatusMessage :=
  { updated_msg_type := ScoutMotionStatusMsg
    motion_status_msg :=
      { linear_velocity := ⟨0xE8, 0x03⟩, angular_velocity := ⟨0, 0⟩ }
    light_status_msg := zeroLightBody
    system_status_msg := zeroSystemBody
    motor_driver_status_msg := zeroMotorBody }

/-- A system status message carrying battery bytes `{0x70, 0x01}` (= 368). -/
def sampleSystemMsg : ScoutStatusMessage :=
  { updated_msg_type := ScoutSystemStatusMsg
    motion_status_msg := zeroMotionBody
    light_status_msg := zeroLightBody
    system_status_msg :=
      { control_mode := 1, base_state := 0
        battery_voltage := ⟨0x70, 0x01⟩, fault_code := ⟨0, 0⟩ }
    motor_driver_status_msg := zeroMotorBody }

/-- A motor 2 driver status message with nonzero payload. -/
def sampleMotor2Msg : ScoutStatusMessage :=
  { updated_msg_type := ScoutMotor2DriverStatusMsg
    motion_status_msg := zeroMotionBody
    light_status_msg := zeroLightBody
    system_status_msg := zeroSystemBody
    motor_driver_status_msg :=
      { current := ⟨10, 0⟩, rpm := ⟨0x10, 0⟩, temperature := 35 } }

/-- A status message whose tag (100) matches none of the seven handled
message kinds. -/
def sampleUnknownMsg : ScoutStatusMessage :=
  { updated_msg_type := 100
    motion_status_msg := zeroMotionBody
    light_status_msg := zeroLightBody
    system_status_msg := zeroSystemBody
    motor_driver_status_msg := zeroMotorBody }

/-- C3: for every MotionStatus message the reducer sets `linear_velocity`
(and analogously `angular_velocity`) to the signed 16-bit value assembled as
`low byte | high byte << 8`, divided by 1000; in particular velocity bytes
`{low: 0xE8, high: 0x03}` yield `linear_velocity = 1`. -/
theorem motionStatus_velocity_decode (msg : ScoutStatusMessage)
    (state : ScoutState) (h : msg.updated_msg_type = ScoutMotionStatusMsg) :
    (updateScoutState msg state).linear_velocity =
      (toInt16 (ubyte msg.motion_status_msg.linear_velocity.low_byte |||
        (ubyte msg.motion_status_msg.linear_velocity.high_byte <<< 8)) : ℚ) /
        1000 ∧
    (updateScoutState msg state).angular_velocity =
      (toInt16 (ubyte msg.motion_status_msg.angular_velocity.low_byte |||
        (ubyte msg.motion_status_msg.angular_velocity.high_byte <<< 8)) : ℚ) /
        1000 ∧
    (msg.motion_status_msg.linear_velocity = ⟨0xE8, 0x03⟩ →
      (updateScoutState msg state).linear_velocity = 1) := by
  refine ⟨by simp [updateScoutState, h, assembleU16],
          by simp [updateScoutState, h, assembleU16], ?_⟩
  intro hb
  have e1 : toInt16 (ubyte 0xE8 ||| (ubyte 0x03 <<< 8)) = 1000 := by decide
  simp [updateScoutState, h, assembleU16, hb, e1]

/-- C3 witness: the sample motion message yields linear velocity 1. -/
theorem motionStatus_velocity_decode_witness :
    (updateScoutState sampleMotionMsg initScoutState).linear_velocity = 1 :=
  (motionStatus_velocity_decode sampleMotionMsg initScoutState rfl).2.2 rfl

/-- C4: for every SystemStatus message the reducer sets `battery_voltage` to
the unsigned 16-bit little-endian-assembled value divided by 10 and
`fault_code` to the assembled value unscaled; in particular battery bytes
`{low: 0x70, high: 0x01}` (= 368) yield `battery_voltage = 36.8`. -/
theorem systemStatus_decode (msg : ScoutStatusMessage) (state : ScoutState)
    (h : msg.updated_msg_type = ScoutSystemStatusMsg) :
    (updateScoutState msg state).battery_voltage =
      ((ubyte msg.system_status_msg.battery_voltage.low_byte |||
        (ubyte msg.system_status_msg.battery_voltage.high_byte <<< 8) : Nat) :
        ℚ) / 10 ∧
    (updateScoutState msg state).fault_code =
      (ubyte msg.system_status_msg.fault_code.low_byte |||
        (ubyte msg.system_status_msg.fault_code.high_byte <<< 8)) ∧
    (msg.system_status_msg.battery_voltage = ⟨0x70, 0x01⟩ →
      (updateScoutState msg state).battery_voltage = 36.8) := by
  have hd : ScoutSystemStatusMsg ≠ ScoutMotionStatusMsg ∧
      ScoutSystemStatusMsg ≠ ScoutLightStatusMsg := by decide
  refine ⟨by simp [updateScoutState, h, assembleU16, hd.1, hd.2],
          by simp [updateScoutState, h, assembleU16, hd.1, hd.2], ?_⟩
  intro hb
  have e1 : (ubyte 0x70 ||| (ubyte 0x01 <<< 8)) = 368 := by decide
  simp [updateScoutState, h, assembleU16, hb, e1, hd.1, hd.2]
  norm_num

/-- C4 witness: the sample system message yields battery voltage 36.8. -/
theorem systemStatus_decode_witness :
    (updateScoutState sampleSystemMsg initScoutState).battery_voltage = 36.8 :=
  (systemStatus_decode sampleSystemMsg initScoutState rfl).2.2 rfl

/-- C10: a status message whose tag matches none of the seven handled kinds
leaves the robot state completely unchanged (the switch has no default
branch and performs no write). -/
theorem unhandledMsgType_noop (msg : ScoutStatusMessage) (state : ScoutState)
    (h : msg.updated_msg_type ∉
      ([ScoutMotionStatusMsg, ScoutLightStatusMsg, ScoutSystemStatusMsg,
        ScoutMotor1DriverStatusMsg, ScoutMotor2DriverStatusMsg,
        ScoutMotor3DriverStatusMsg, ScoutMotor4DriverStatusMsg] : List Nat)) :
    updateScoutState msg state = state := by
  simp only [List.mem_cons, List.not_mem_nil, or_false, not_or] at h
  obtain ⟨h1, h2, h3, h4, h5, h6, h7⟩ := h
  simp [updateScoutState, h1, h2, h3, h4, h5, h6, h7]

/-- C10 witness: a message with tag 100 is a no-op on the initial state. -/
theorem unhandledMsgType_noop_witness :
    updateScoutState sampleUnknownMsg initScoutState = initScoutState :=
  unhandledMsgType_noop sampleUnknownMsg initScoutState (by decide)

/-- C6: `Connect` with a zero baud rate configures the CAN transport and
touches no serial field; with a nonzero baud rate it configures and opens
the serial transport and touches no CAN field. -/
theorem connect_transport_exclusive (openOk : Bool) (baud_rate : Int)
    (s : ConnState) :
    (baud_rate = 0 →
      (connect openOk baud_rate s).can_configured = true ∧
      (connect openOk baud_rate s).can_connected = true ∧
      (connect openOk baud_rate s).serial_configured = s.serial_configured ∧
      (connect openOk baud_rate s).serial_open_attempted =
        s.serial_open_attempted ∧
      (connect openOk baud_rate s).serial_open = s.serial_open ∧
      (connect openOk baud_rate s).serial_connected = s.serial_connected) ∧
    (baud_rate ≠ 0 →
      (connect openOk baud_rate s).can_configured = s.can_configured ∧
      (connect openOk baud_rate s).can_connected = s.can_connected ∧
      (connect openOk baud_rate s).serial_configured = true ∧
      (connect openOk baud_rate s).serial_open_attempted = true ∧
      (connect openOk baud_rate s).serial_open = openOk ∧
      (connect openOk baud_rate s).serial_connected =
        (openOk || s.serial_connected)) := by
  constructor
  · intro h
    simp [connect, configureCANBus, h]
  · intro h
    cases openOk <;> simp [connect, configureSerial, h]

/-- C6 witness: from the fresh state, baud 0 leaves serial unconfigured and
baud 115200 leaves CAN unconfigured. -/
theorem connect_transport_exclusive_witness :
    (connect true 0 initConnState).serial_configured = false ∧
    (connect true 115200 initConnState).can_configured = false :=
  ⟨((connect_transport_exclusive true 0 initConnState).1 rfl).2.2.1.trans rfl,
   (((connect_transport_exclusive true 115200 initConnState).2
      (by decide)).1).trans rfl⟩

/-- C9: `Disconnect` closes the port only when the serial transport is
connected and open; otherwise (in particular when the active transport is
CAN) it changes nothing. -/
theorem disconnect_serial_only (s : ConnState) :
    (s.serial_connected = false → disconnect s = s) ∧
    (s.serial_connected = true → s.serial_open = true →
      disconnect s = { s with serial_open := false }) ∧
    (s.serial_connected = true → s.serial_open = false →
      disconnect s = s) := by
  refine ⟨?_, ?_, ?_⟩ <;> intros <;> simp [disconnect, *]

/-- C9 witness: after a CAN-only connect, `Disconnect` is the identity. -/
theorem disconnect_serial_only_witness :
    disconnect (connect true 0 initConnState) = connect true 0 initConnState :=
  (disconnect_serial_only (connect true 0 initConnState)).1 (by decide)

/-- State `a` agrees with `b` on every `ScoutState` field except possibly motor
slot `k`. -/
def agreesExceptMotor (a b : ScoutState) (k : Fin 4) : Prop :=
  a.linear_velocity = b.linear_velocity ∧
  a.angular_velocity = b.angular_velocity ∧
  a.control_mode = b.control_mode ∧
  a.base_state = b.base_state ∧
  a.battery_voltage = b.battery_voltage ∧
  a.fault_code = b.fault_code ∧
  a.light_control_enabled = b.light_control_enabled ∧
  a.front_light_state = b.front_light_state ∧
  a.rear_light_state = b.rear_light_state ∧
  ∀ j : Fin 4, j ≠ k → a.motor_states j = b.motor_states j

/-- C5: every status message changes only the robot-state fields owned by its
kind — motion: the two velocities; light: the light-enabled flag and the two
light states; system: control mode, base state, battery voltage, fault code;
motor `N`: motor slot `N - 1` — and every other field of the resulting state
equals its previous value. -/
theorem updateScoutState_frame_effect (msg : ScoutStatusMessage)
    (s : ScoutState) :
    (msg.updated_msg_type = ScoutMotionStatusMsg →
      (updateScoutState msg s).control_mode = s.control_mode ∧
      (updateScoutState msg s).base_state = s.base_state ∧
      (updateScoutState msg s).battery_voltage = s.battery_voltage ∧
      (updateScoutState msg s).fault_code = s.fault_code ∧
      (updateScoutState msg s).light_control_enabled =
        s.light_control_enabled ∧
      (updateScoutState msg s).front_light_state = s.front_light_state ∧
      (updateScoutState msg s).rear_light_state = s.rear_light_state ∧
      (updateScoutState msg s).motor_states = s.motor_states) ∧
    (msg.updated_msg_type = ScoutLightStatusMsg →
      (updateScoutState msg s).linear_velocity = s.linear_velocity ∧
      (updateScoutState msg s).angular_velocity = s.angular_velocity ∧
      (updateScoutState msg s).control_mode = s.control_mode ∧
      (updateScoutState msg s).base_state = s.base_state ∧
      (updateScoutState msg s).battery_voltage = s.battery_voltage ∧
      (updateScoutState msg s).fault_code = s.fault_code ∧
      (updateScoutState msg s).motor_states = s.motor_states) ∧
    (msg.updated_msg_type = ScoutSystemStatusMsg →
      (updateScoutState msg s).linear_velocity = s.linear_velocity ∧
      (updateScoutState msg s).angular_velocity = s.angular_velocity ∧
      (updateScoutState msg s).light_control_enabled =
        s.light_control_enabled ∧
      (updateScoutState msg s).front_light_state = s.front_light_state ∧
      (updateScoutState msg s).rear_light_state = s.rear_light_state ∧
      (updateScoutState msg s).motor_states = s.motor_states) ∧
    (msg.updated_msg_type = ScoutMotor1DriverStatusMsg →
      agreesExceptMotor (updateScoutState msg s) s 0) ∧
    (msg.updated_msg_type = ScoutMotor2DriverStatusMsg →
      agreesExceptMotor (updateScoutState msg s) s 1) ∧
    (msg.updated_msg_type = ScoutMotor3DriverStatusMsg →
      agreesExceptMotor (updateScoutState msg s) s 2) ∧
    (msg.updated_msg_type = ScoutMotor4DriverStatusMsg →
      agreesExceptMotor (updateScoutState msg s) s 3) := by
  refine ⟨?_, ?_, ?_, ?_, ?_, ?_, ?_⟩ <;> intro h <;>
    simp [agreesExceptMotor, updateScoutState, h, ScoutMotionStatusMsg,
      ScoutLightStatusMsg,
      ScoutSystemStatusMsg, ScoutMotor1DriverStatusMsg,
      ScoutMotor2DriverStatusMsg, ScoutMotor3DriverStatusMsg,
      ScoutMotor4DriverStatusMsg] <;>
    intro j hj <;>
    exact Function.update_noteq hj _ _

/-- C5 witness: under a system message the velocities are untouched, and
under a motor-2 message motor slot 0 is untouched. -/
theorem updateScoutState_frame_effect_witness :
    (updateScoutState sampleSystemMsg initScoutState).linear_velocity =
      initScoutState.linear_velocity ∧
    (updateScoutState sampleMotor2Msg initScoutState).motor_states 0 =
      initScoutState.motor_states 0 :=
  ⟨((updateScoutState_frame_effect sampleSystemMsg initScoutState).2.2.1
      rfl).1,
   ((updateScoutState_frame_effect sampleMotor2Msg initScoutState).2.2.2.2.1
      rfl).2.2.2.2.2.2.2.2.2 0 (by decide)⟩

/-- C1 (code defect): the checksum guard of `ParseCANFrame` is
`!rx_frame->data[7] == checksum`, which compares the logical negation of the
trailing byte with the recomputed checksum instead of comparing the two
checksum values.  A frame whose trailing byte (5) differs from its recomputed
checksum (7) is therefore NOT discarded: the reducer runs and the robot state
changes, contradicting the claim (and the code's own comment, which says
"validate checksum, discard frame if fails"). -/
theorem parseCANFrame_checksum_bug :
    (5 : Nat) ≠ 7 ∧
    initScoutState.linear_velocity = 0 ∧
    (parseCANFrame 7 5 sampleMotionMsg initScoutState).linear_velocity = 1 := by
  refine ⟨by decide, rfl, ?_⟩
  have hguard : ¬ ((if ubyte 5 = 0 then 1 else 0) = (7 : Nat)) := by decide
  simp only [parseCANFrame]
  rw [if_neg hguard]
  have e1 : toInt16 (ubyte 0xE8 ||| (ubyte 0x03 <<< 8)) = 1000 := by decide
  simp [updateScoutState, sampleMotionMsg, assembleU16, e1]

/-- C2 counterexample: the stored integer is NOT `round(clamped / max * 100)`.
With the symmetric bounds `±3/2` and `±1/2` and the in-range input
`linear = 21/16` (= 1.3125), the scaled value is exactly 87.5: the code
stores the truncation 87, while rounding would give 88. -/
theorem setMotionCommand_round_counterexample :
    (setMotionCommand (-(3/2)) (3/2) (-(1/2)) (1/2) (21/16) 0 0).linear_velocity ≠
      round (clampSeq (-(3/2)) (3/2) (21/16) / (3/2) * 100) ∧
    (setMotionCommand (-(3/2)) (3/2) (-(1/2)) (1/2) (21/16) 0 0).linear_velocity =
      87 ∧
    round (clampSeq (-(3/2)) (3/2) ((21 : ℚ)/16) / (3/2) * 100) = 88 ∧
    clampSeq (-(3/2)) (3/2) ((21 : ℚ)/16) = 21/16 := by
  have hc : clampSeq (-(3/2)) (3/2) ((21 : ℚ)/16) = 21/16 := by
    norm_num [clampSeq]
  have hv : clampSeq (-(3/2)) (3/2) ((21 : ℚ)/16) / (3/2) * 100 = 175/2 := by
    rw [hc]; norm_num
  have hfloor : ⌊(175 : ℚ)/2⌋ = 87 := by norm_num
  have hr : round ((175 : ℚ)/2) = 88 := by
    rw [round_eq, show (175 : ℚ)/2 + 1/2 = 88 by norm_num]
    norm_num
  have hs : (setMotionCommand (-(3/2)) (3/2) (-(1/2)) (1/2) (21/16) 0
      0).linear_velocity = 87 := by
    show truncQ (clampSeq (-(3/2)) (3/2) (21/16) / (3/2) * 100) = 87
    rw [hv]
    unfold truncQ
    rw [if_pos (by norm_num : (0 : ℚ) ≤ 175/2)]
    exact hfloor
  exact ⟨by rw [hs, hv, hr]; decide, hs, by rw [hv, hr], hc⟩

/-- C2 (amended): for all inputs, the physical magnitude stored by
`SetMotionCommand` (the clamped velocity) lies within `[min, max]` inclusive,
and the stored integer equals the truncation toward zero of
`clamped / max * 100` (the `static_cast<uint8_t>` of the code), not its
rounding. -/
theorem setMotionCommand_clamp_trunc (minLin maxLin minAng maxAng lin ang : ℚ)
    (flag : Nat) (h1 : minLin ≤ maxLin) (h2 : minAng ≤ maxAng) :
    minLin ≤ clampSeq minLin maxLin lin ∧
    clampSeq minLin maxLin lin ≤ maxLin ∧
    minAng ≤ clampSeq minAng maxAng ang ∧
    clampSeq minAng maxAng ang ≤ maxAng ∧
    (setMotionCommand minLin maxLin minAng maxAng lin ang
        flag).linear_velocity =
      truncQ (clampSeq minLin maxLin lin / maxLin * 100) ∧
    (setMotionCommand minLin maxLin minAng maxAng lin ang
        flag).angular_velocity =
      truncQ (clampSeq minAng maxAng ang / maxAng * 100) := by
  have hb : ∀ lo hi v : ℚ, lo ≤ hi →
      lo ≤ clampSeq lo hi v ∧ clampSeq lo hi v ≤ hi := by
    intro lo hi v hlh
    simp only [clampSeq]
    split_ifs with hA hB <;> constructor <;> first | rfl | linarith
  exact ⟨(hb _ _ _ h1).1, (hb _ _ _ h1).2, (hb _ _ _ h2).1, (hb _ _ _ h2).2,
    rfl, rfl⟩

/-- C2 witness: with bounds `±3/2`, `±1/2` and inputs `(2, 0)`, the clamped
linear velocity is within bounds and the stored integer is the truncated
scaled value. -/
theorem setMotionCommand_clamp_trunc_witness :
    clampSeq (-(3/2)) (3/2) 2 ≤ (3 : ℚ)/2 ∧
    (setMotionCommand (-(3/2)) (3/2) (-(1/2)) (1/2) 2 0 0).linear_velocity =
      truncQ (clampSeq (-(3/2)) (3/2) 2 / (3/2) * 100) :=
  ⟨(setMotionCommand_clamp_trunc (-(3/2)) (3/2) (-(1/2)) (1/2) 2 0 0
      (by norm_num) (by norm_num)).2.1,
   (setMotionCommand_clamp_trunc (-(3/2)) (3/2) (-(1/2)) (1/2) 2 0 0
      (by norm_num) (by norm_num)).2.2.2.2.1⟩

/-- A tick always advances the motion counter by one modulo 256, whether or
not a light frame went out. -/
lemma tick_cmd_count (s : CmdLoopState) :
    (tick s).2.cmd_count = (s.cmd_count + 1) % 256 := by
  simp only [tick]
  split_ifs <;> rfl

/-- The motion frame of a tick carries the pre-increment counter value. -/
lemma tick_motion_out (s : CmdLoopState) :
    (tick s).1.motion_count = s.cmd_count % 256 := by
  simp only [tick]
  split_ifs <;> rfl

/-- A tick emits a light frame exactly when `light_ctrl_requested_` was set. -/
lemma tick_light_sent (s : CmdLoopState) :
    ((tick s).1.light_sent).isSome = s.light_ctrl_requested := by
  simp only [tick]
  split_ifs with h <;> simp_all

/-- After a tick the request flag is always clear (either it was false, or
`SendLightCmd` reset it). -/
lemma tick_clears_requested (s : CmdLoopState) :
    (tick s).2.light_ctrl_requested = false := by
  simp only [tick]
  split_ifs with h
  · rfl
  · simpa using h

/-- The `i`-th tick of a trace sends the motion counter advanced `i` times
modulo 256 from its starting value. -/
lemma tickOuts_motion (evs : List CmdEvent) :
    ∀ (s : CmdLoopState) (i : Nat) (h : i < (tickOuts s evs).length),
      ((tickOuts s evs).get ⟨i, h⟩).motion_count = (s.cmd_count + i) % 256 := by
  induction evs with
  | nil =>
    intro s i h
    simp [tickOuts] at h
  | cons e es ih =>
    intro s i h
    cases e with
    | tick =>
      cases i with
      | zero =>
        simpa [tickOuts] using tick_motion_out s
      | succ j =>
        have hj : j < (tickOuts (tick s).2 es).length := by
          simpa [tickOuts] using h
        have := ih (tick s).2 j hj
        simp only [tickOuts, List.get_cons_succ]
        rw [this, tick_cmd_count]
        omega
    | setLight =>
      have hj : i < (tickOuts (setLightCommand s) es).length := by
        simpa [tickOuts] using h
      have := ih (setLightCommand s) i hj
      simpa [tickOuts, setLightCommand] using this
    | disableLight =>
      have hj : i < (tickOuts (disableLightCmdControl s) es).length := by
        simpa [tickOuts] using h
      have := ih (disableLightCmdControl s) i hj
      simpa [tickOuts, disableLightCmdControl] using this

/-- C7: in any event trace, the motion command frame of each control-loop
tick carries a count exactly one greater (mod 256) than the previous tick's
frame, regardless of interleaved light-command activity. -/
theorem controlLoop_motion_count_increments (s : CmdLoopState)
    (evs : List CmdEvent) (i : Nat)
    (h : i + 1 < (tickOuts s evs).length) :
    ((tickOuts s evs).get ⟨i + 1, h⟩).motion_count =
      (((tickOuts s evs).get
          ⟨i, Nat.lt_of_succ_lt h⟩).motion_count + 1) % 256 := by
  rw [tickOuts_motion evs s (i + 1) h,
    tickOuts_motion evs s i (Nat.lt_of_succ_lt h)]
  omega

/-- C7 witness: over the trace tick, set-light, tick the second motion frame
counts one past the first. -/
theorem controlLoop_motion_count_increments_witness :
    ((tickOuts initCmdLoopState
        [CmdEvent.tick, CmdEvent.setLight, CmdEvent.tick]).get
      ⟨1, by decide⟩).motion_count =
    (((tickOuts initCmdLoopState
        [CmdEvent.tick, CmdEvent.setLight, CmdEvent.tick]).get
      ⟨0, by decide⟩).motion_count + 1) % 256 :=
  controlLoop_motion_count_increments initCmdLoopState
    [CmdEvent.tick, CmdEvent.setLight, CmdEvent.tick] 0 (by decide)

/-- If the request flag is up after running a trace, either some setter call
occurs in the trace with no tick after it, or the flag was up initially and
the trace has no tick at all. -/
lemma runEvents_requested_since_setter (evs : List CmdEvent) :
    ∀ s : CmdLoopState, (runEvents s evs).light_ctrl_requested = true →
      (∃ xs e ys, evs = xs ++ e :: ys ∧
        (e = CmdEvent.setLight ∨ e = CmdEvent.disableLight) ∧
        CmdEvent.tick ∉ ys) ∨
      (s.light_ctrl_requested = true ∧ CmdEvent.tick ∉ evs) := by
  induction evs with
  | nil =>
    intro s h
    exact Or.inr ⟨h, by simp⟩
  | cons e es ih =>
    intro s h
    have h2 := ih (stepEvent s e) (by simpa [runEvents] using h)
    rcases h2 with ⟨xs, e2, ys, hsplit, hset, hnt⟩ | ⟨hreq, hnt⟩
    · exact Or.inl ⟨e :: xs, e2, ys, by rw [hsplit]; rfl, hset, hnt⟩
    · cases e with
      | tick =>
        rw [show stepEvent s CmdEvent.tick = (tick s).2 from rfl,
          tick_clears_requested] at hreq
        exact absurd hreq (by simp)
      | setLight =>
        exact Or.inl ⟨[], CmdEvent.setLight, es, rfl, Or.inl rfl, hnt⟩
      | disableLight =>
        exact Or.inl ⟨[], CmdEvent.disableLight, es, rfl, Or.inr rfl, hnt⟩

/-- C8: each setter raises the request flag; a tick emits a light frame
exactly when the flag is up and always leaves it down (the send consumes the
request); and a tick that emits a light frame is always preceded, since the
last tick (hence since the last light send, as sends happen only at ticks),
by some setter call — no light frame goes out without a fresh request. -/
theorem lightCmd_request_protocol :
    (∀ s : CmdLoopState,
      (setLightCommand s).light_ctrl_requested = true ∧
      (disableLightCmdControl s).light_ctrl_requested = true) ∧
    (∀ s : CmdLoopState,
      ((tick s).1.light_sent).isSome = s.light_ctrl_requested ∧
      (tick s).2.light_ctrl_requested = false) ∧
    (∀ (s : CmdLoopState) (evs : List CmdEvent),
      s.light_ctrl_requested = false →
      ((tick (runEvents s evs)).1.light_sent).isSome = true →
      ∃ xs e ys, evs = xs ++ e :: ys ∧
        (e = CmdEvent.setLight ∨ e = CmdEvent.disableLight) ∧
        CmdEvent.tick ∉ ys) := by
  refine ⟨fun s => ⟨rfl, rfl⟩,
    fun s => ⟨tick_light_sent s, tick_clears_requested s⟩, ?_⟩
  intro s evs h0 hsent
  rw [tick_light_sent] at hsent
  rcases runEvents_requested_since_setter evs s hsent with h | ⟨hreq, _⟩
  · exact h
  · rw [h0] at hreq
    exact absurd hreq (by simp)

/-- C8 witness: after a single set-light call the next tick's light frame is
indeed explained by a setter with no intervening tick. -/
theorem lightCmd_request_protocol_witness :
    ∃ xs e ys, ([CmdEvent.setLight] : List CmdEvent) = xs ++ e :: ys ∧
      (e = CmdEvent.setLight ∨ e = CmdEvent.disableLight) ∧
      CmdEvent.tick ∉ ys :=
  lightCmd_request_protocol.2.2 initCmdLoopState [CmdEvent.setLight] rfl
    (by decide)

end Wescore
